import Mathlib

/-!
# Verification of the RAG orchestration core of `scheme_chatbot`

Shallow embedding of `backend/rag.py` (query composition, retrieval
filtering, prompt assembly, history windowing, LLM dispatch and error
fallback).  Python floats are modelled as rationals (`ℚ`); the only
float operations the core performs are comparison against `1.5`,
subtraction from `1.0` and two-decimal formatting.  Python `None` and
absent dictionary keys are modelled with `Option`; code that can raise
is modelled in `Except String`.  External collaborators (the Chroma
vector index and the Gemini LLM) are oracle parameters.
-/

namespace SchemeChatbot

/-- A conversational turn as stored by the persistence layer and passed to
`generate_response` as an element of `chat_history`: a dict with `role`
(`"user"` or `"assistant"`) and `content`. -/
structure Msg where
  role : String
  content : String
deriving DecidableEq, Repr

/-- A message in the Gemini conversation format built at rag.py:209-217:
a dict with `role` (`"user"` or `"model"`) and `parts` (a list holding
one string). -/
structure GMsg where
  role : String
  parts : List String
deriving DecidableEq, Repr

/-- Python's `l[-n:]`: the last `n` elements of `l` (all of `l` when it is
shorter), in original order. -/
def lastN (n : ℕ) (l : List α) : List α := l.drop (l.length - n)

/-- rag.py:152-159.  `search_query = query`; when `chat_history` is truthy
and non-empty, collect `msg["content"] for msg in chat_history[-4:] if
msg["role"] == "user"`, and when that list is truthy replace the search
query with `" ".join(recent_user_queries[-2:]) + " " + query`. -/
def composeSearchQuery (query : String) (chatHistory : List Msg) : String :=
  if chatHistory.length > 0 then
    let recentUserQueries :=
      ((lastN 4 chatHistory).filter (fun m => m.role = "user")).map (fun m => m.content)
    if recentUserQueries.length > 0 then
      String.intercalate " " (lastN 2 recentUserQueries) ++ " " ++ query
    else query
  else query

/-- The composition rule exactly as the specification states it: empty
history gives the query verbatim; otherwise the contents of the user
turns among the last 4 turns (at most the 2 most recent, original order)
are joined with a single space and a space plus the current query is
appended. -/
def composeSearchQuerySpecC1 (query : String) (chatHistory : List Msg) : String :=
  if chatHistory = [] then query
  else
    String.intercalate " "
      (lastN 2 (((lastN 4 chatHistory).filter (fun m => m.role = "user")).map
        (fun m => m.content)))
      ++ " " ++ query

/-- The amended composition rule: as the specification states it, except
that when none of the last 4 turns is a user turn the composed query is
the current query verbatim (no leading space is prepended). -/
def composeSearchQuerySpecC1Amended (query : String) (chatHistory : List Msg) : String :=
  let users :=
    ((lastN 4 chatHistory).filter (fun m => m.role = "user")).map (fun m => m.content)
  if users = [] then query
  else String.intercalate " " (lastN 2 users) ++ " " ++ query

/-! ## Retrieval filtering and the relevance display (rag.py:165-182) -/

/-- The distance cutoff `1.5` of rag.py:175 (written through `mkRat` so
that the kernel can evaluate comparisons against it; `Rat` field
operations are `@[irreducible]`). -/
def relevanceCutoff : ℚ := mkRat 3 2

theorem relevanceCutoff_eq : relevanceCutoff = 3/2 := by
  unfold relevanceCutoff
  norm_num [Rat.mkRat_eq_div]

/-- `1 - d`, computed on numerator and denominator so that the kernel can
evaluate it; `oneMinus_eq` proves it equal to the subtraction. -/
def oneMinus (d : ℚ) : ℚ :=
  Rat.divInt ((d.den : ℤ) - d.num) (d.den : ℤ)

theorem oneMinus_eq (d : ℚ) : oneMinus d = 1 - d := by
  unfold oneMinus
  rw [Rat.divInt_eq_div]
  push_cast
  rw [sub_div, div_self (by exact_mod_cast d.den_nz : ((d.den : ℚ) ≠ 0)),
    Rat.num_div_den]

/-- `q * 100`, computed on numerator and denominator so that the kernel
can evaluate it; `times100_eq` proves it equal to the multiplication. -/
def times100 (q : ℚ) : ℚ :=
  Rat.divInt (q.num * 100) (q.den : ℤ)

theorem times100_eq (q : ℚ) : times100 q = q * 100 := by
  unfold times100
  rw [Rat.divInt_eq_div]
  push_cast
  rw [mul_div_right_comm, Rat.num_div_den]

/-- Round a rational to the nearest integer, ties to even, modelling the
rounding used by Python's fixed-point float formatting.  With
`q0 = ⌊q⌋`, the fractional part is `(q.num - q0 * q.den) / q.den`, so it
is below (above) `1/2` exactly when `r2 = 2 * (q.num - q0 * q.den)` is
below (above) `q.den`. -/
def roundHalfEven (q : ℚ) : ℤ :=
  let q0 := q.floor
  let r2 := 2 * (q.num - q0 * (q.den : ℤ))
  if r2 < (q.den : ℤ) then q0
  else if (q.den : ℤ) < r2 then q0 + 1
  else if q0 % 2 = 0 then q0 else q0 + 1

/-- Render a natural number below 100 as exactly two digits. -/
def twoDigitStr (k : ℕ) : String :=
  if k < 10 then "0" ++ toString k else toString k

/-- Python's `f"{x:.2f}"` on our rational model of floats: the value
times 100 rounded to the nearest integer (ties to even), rendered with
two digits after the point and a leading minus sign for negative inputs
(Python prints `-0.00` for a negative value rounding to zero). -/
def fmt2 (q : ℚ) : String :=
  let n := roundHalfEven (times100 q)
  let mag := n.natAbs
  let body := toString (mag / 100) ++ "." ++ twoDigitStr (mag % 100)
  if q < 0 then "-" ++ body else body

/-- rag.py:176.  The block appended for the match at 0-based unfiltered
index `i`:
`f"--- Relevant Scheme {i+1} (Relevance: {1.0 - distance:.2f}) ---\n{doc}"`.
`n` is already the 1-based number `i+1`; `oneMinus dist = 1 - dist` by
`oneMinus_eq`. -/
def schemeBlock (n : ℕ) (dist : ℚ) (doc : String) : String :=
  "--- Relevant Scheme " ++ toString n ++ " (Relevance: " ++ fmt2 (oneMinus dist)
    ++ ") ---\n" ++ doc

/-- rag.py:166-176.  The loop
`for i, (doc, distance) in enumerate(zip(documents, distances)):` appends
a `schemeBlock` exactly when `distance < 1.5`. -/
def contextPartsOf (documents : List String) (distances : List ℚ) : List String :=
  ((documents.zip distances).enum).filterMap
    (fun p => if p.2.2 < relevanceCutoff then some (schemeBlock (p.1 + 1) p.2.2 p.2.1)
      else none)

/-- The (0-based index, document, distance) triples the filtering loop at
rag.py:173-176 retains: exactly those pairs of the enumerated
`zip(documents, distances)` whose distance is strictly below `1.5`. -/
def retainedMatches (documents : List String) (distances : List ℚ) :
    List (ℕ × String × ℚ) :=
  ((documents.zip distances).enum).filter (fun p => p.2.2 < relevanceCutoff)

/-- rag.py:180.  The sentinel substituted when no match survives filtering. -/
def noRelevantSentinel : String :=
  "No highly relevant schemes found in the database for this query."

/-- rag.py:179-182.  `context` is the sentinel when `context_parts` is
empty, else `"\n\n".join(context_parts)`. -/
def contextString (parts : List String) : String :=
  if parts.isEmpty then noRelevantSentinel
  else String.intercalate "\n\n" parts

/-! ## Prompt assembly (rag.py:186-217) -/

/-- rag.py:186-199.  The fixed instruction preamble, verbatim (the first
line ends with a space before the newline, and the string ends with a
newline). -/
def systemPrompt : String :=
  "You are a helpful assistant specializing in Indian government schemes, particularly for Tamil Nadu and all-India schemes. \nYour role is to provide accurate, detailed information about government schemes based ONLY on the context provided below.\n\nCRITICAL RULES:\n1. ONLY use information from the context provided below - DO NOT make up or add information\n2. If the answer is not in the context, clearly state \"I don\x27t have information about this in the provided schemes database\"\n3. Be specific and cite exact scheme names from the context\n4. When providing details, copy them accurately from the context (eligibility, benefits, application process)\n5. Format your response in clear, well-structured markdown with tables where appropriate\n6. If multiple relevant schemes are found, compare them to help the user choose\n7. MAINTAIN CONVERSATION CONTEXT: If the user asks a follow-up question (like \"where do I apply?\" or \"what documents needed?\"), answer about the SAME schemes discussed in the previous messages, NOT about different schemes\n\nContext from relevant government schemes:\n"

/-- rag.py:202-204.  The follow-up note appended after the user question
when `chat_history` is truthy and non-empty, else the empty string. -/
def contextNote (chatHistory : List Msg) : String :=
  if chatHistory.length > 0 then
    "\n\nNOTE: This is a follow-up question in an ongoing conversation. Make sure to answer about the schemes already being discussed, not new unrelated schemes."
  else ""

/-- rag.py:206.  `full_prompt`, with `context` already computed. -/
def fullPromptOf (query context : String) (chatHistory : List Msg) : String :=
  systemPrompt ++ "\n\n" ++ context ++ "\n\n---\n\nUser Question: " ++ query
    ++ contextNote chatHistory
    ++ "\n\nPlease answer based ONLY on the schemes provided in the context above."

/-- rag.py:209-214.  The prior-turn window sent to Gemini: when
`chat_history` is truthy, the last 6 turns each mapped to role `"user"`
if the stored role is `"user"` and `"model"` otherwise, its content as
the single element of `parts`. -/
def historyWindow (chatHistory : List Msg) : List GMsg :=
  if chatHistory.isEmpty then []
  else (lastN 6 chatHistory).map
    (fun m => ⟨if m.role = "user" then "user" else "model", [m.content]⟩)

/-- rag.py:209-217.  `messages`: the history window followed by the
current turn `{"role": "user", "parts": [full_prompt]}`. -/
def buildMessages (chatHistory : List Msg) (fullPrompt : String) : List GMsg :=
  historyWindow chatHistory ++ [⟨"user", [fullPrompt]⟩]

/-- The prompt-assembly stage as a single function: the `prompt_text`
sent as the newest turn and the `history_window` of prior turns
(rag.py:165-217 without the external calls). -/
def assemblePrompt (query : String) (documents : List String) (distances : List ℚ)
    (chatHistory : List Msg) : String × List GMsg :=
  (fullPromptOf query (contextString (contextPartsOf documents distances)) chatHistory,
   historyWindow chatHistory)

/-! ## External collaborators and the full pipeline (rag.py:140-231) -/

/-- Python truthiness of a value that is either `None` or a list:
`None` and the empty list are falsy. -/
def pyTruthy : Option (List α) → Bool
  | none => false
  | some l => !l.isEmpty

/-- The shape of the dict returned by `collection.query`
(rag.py:142-145) as seen by `generate_response`: each field is `none`
when the key is absent (so that subscripting it raises `KeyError`), and
otherwise holds the key's value, itself `None` or a list of per-query
lists. -/
structure QueryResultPy where
  documents : Option (Option (List (List String)))
  distances : Option (Option (List (List ℚ)))

/-- The outcome of the external `collection.query` call for a given query
text and `n_results`: an exception, or a returned value (`none` models a
falsy result such as `None`). -/
def SearchOracle := String → ℕ → Except String (Option QueryResultPy)

/-- rag.py:140-146.  `search_schemes` forwards to `collection.query`
with no exception handling of its own. -/
def searchSchemes (oracle : SearchOracle) (query : String) (nResults : ℕ) :
    Except String (Option QueryResultPy) :=
  oracle query nResults

/-- rag.py:140.  The declared default of `search_schemes`'s `n_results`
parameter. -/
def searchSchemesDefaultNResults : ℕ := 5

/-- rag.py:162.  The `n_results` value `generate_response` actually
passes to `search_schemes`. -/
def pipelineNResults : ℕ := 10

/-- rag.py:165-176.  Evaluate
`if search_results and search_results['documents'] and search_results['distances']:`
left to right with Python short-circuiting — subscripting a dict that
lacks the key raises `KeyError` — and on success run the filtering loop
over `zip(search_results['documents'][0], search_results['distances'][0])`. -/
def buildContextParts (searchResults : Option QueryResultPy) :
    Except String (List String) :=
  match searchResults with
  | none => Except.ok []
  | some r =>
    match r.documents with
    | none => Except.error "KeyError: documents"
    | some docVal =>
      if pyTruthy docVal then
        match r.distances with
        | none => Except.error "KeyError: distances"
        | some distVal =>
          if pyTruthy distVal then
            Except.ok (contextPartsOf ((docVal.getD []).headD []) ((distVal.getD []).headD []))
          else Except.ok []
      else Except.ok []

/-- The external Gemini model: `model.generate_content(prompt)` for a
single-turn call, and `chat.send_message(prompt)` after
`model.start_chat(history=...)` for a multi-turn call; either may raise. -/
structure LLM where
  generateContent : String → Except String String
  sendMessage : List GMsg → String → Except String String

/-- rag.py:223-227.  The external call made inside the `try` block:
single-turn when `messages` has exactly one entry, otherwise a chat
seeded with `messages[:-1]`. -/
def llmCallResult (llm : LLM) (messages : List GMsg) (fullPrompt : String) :
    Except String String :=
  if messages.length = 1 then llm.generateContent fullPrompt
  else llm.sendMessage messages.dropLast fullPrompt

/-- rag.py:222-231.  The `try`/`except` around the Gemini call: on
success return `response.text`, on any exception return the apology
string with the stringified error appended. -/
def llmStep (llm : LLM) (messages : List GMsg) (fullPrompt : String) : String :=
  match llmCallResult llm messages fullPrompt with
  | Except.ok t => t
  | Except.error e =>
    "I apologize, but I encountered an error while processing your request: " ++ e

/-- rag.py:149-231.  `generate_response`: compose the search query, call
`search_schemes` with `n_results=10` (uncaught, so a raising search
propagates), build the filtered context (uncaught `KeyError` on a
malformed result), assemble the prompt and messages, and run the
guarded LLM call.  The `Except` layer records exceptions escaping the
function. -/
def generateResponse (llm : LLM) (oracle : SearchOracle) (query : String)
    (chatHistory : List Msg) : Except String String :=
  let searchQuery := composeSearchQuery query chatHistory
  match searchSchemes oracle searchQuery pipelineNResults with
  | Except.error e => Except.error e
  | Except.ok searchResults =>
    match buildContextParts searchResults with
    | Except.error e => Except.error e
    | Except.ok parts =>
      let context := contextString parts
      let fullPrompt := fullPromptOf query context chatHistory
      let messages := buildMessages chatHistory fullPrompt
      Except.ok (llmStep llm messages fullPrompt)

/-- An LLM stub whose calls always succeed, for concrete instantiations. -/
def llmOk : LLM :=
  ⟨fun _ => Except.ok "fine", fun _ _ => Except.ok "fine"⟩

/-- An LLM stub whose calls always raise a timeout, for concrete
instantiations. -/
def llmTimeout : LLM :=
  ⟨fun _ => Except.error "Deadline exceeded", fun _ _ => Except.error "Deadline exceeded"⟩

/-! ## Claim C1: search-query composition -/

/-- C1 counterexample: for the non-empty history `[assistant "hi"]` (no
user turn among the last 4 turns) and current query `"q4"`, the code
leaves the search query as `"q4"` verbatim, while the claimed
composition rule (join the selected user contents, then append a space
and the current query) yields `" q4"` with a leading space. -/
theorem composeSearchQuery_C1_counterexample :
    composeSearchQuery "q4" [⟨"assistant", "hi"⟩] = "q4" ∧
    composeSearchQuerySpecC1 "q4" [⟨"assistant", "hi"⟩] = " q4" ∧
    composeSearchQuery "q4" [⟨"assistant", "hi"⟩]
      ≠ composeSearchQuerySpecC1 "q4" [⟨"assistant", "hi"⟩] := by
  decide

/-- C1 amended: the composed search query equals the current query
verbatim when the history is empty; for every history and query it
follows the claimed rule amended so that a history whose last 4 turns
contain no user turn also yields the current query verbatim; and for
user turns `[q1,q2,q3]` interleaved with assistant turns and current
query `q4` it equals `"q2 q3 q4"`. -/
theorem composeSearchQuery_C1_amended :
    (∀ q : String, composeSearchQuery q [] = q) ∧
    (∀ (q : String) (ch : List Msg),
      composeSearchQuery q ch = composeSearchQuerySpecC1Amended q ch) ∧
    composeSearchQuery "q4"
      [⟨"user", "q1"⟩, ⟨"assistant", "a1"⟩, ⟨"user", "q2"⟩, ⟨"assistant", "a2"⟩,
       ⟨"user", "q3"⟩, ⟨"assistant", "a3"⟩] = "q2 q3 q4" := by
  refine ⟨fun q => rfl, fun q ch => ?_, by decide⟩
  unfold composeSearchQuery composeSearchQuerySpecC1Amended
  by_cases h : ch = []
  · subst h; rfl
  · rw [if_pos (by simpa using List.length_pos.mpr h)]
    by_cases h2 :
        ((lastN 4 ch).filter (fun m => m.role = "user")).map (fun m => m.content) = []
    · rw [h2]; simp
    · rw [if_pos (by simpa using List.length_pos.mpr h2), if_neg h2]

/-! ## Shared lemmas about the filtering loop -/

theorem contextParts_eq_map (docs : List String) (dists : List ℚ) :
    contextPartsOf docs dists
      = (retainedMatches docs dists).map (fun p => schemeBlock (p.1 + 1) p.2.2 p.2.1) := by
  unfold contextPartsOf retainedMatches
  generalize (docs.zip dists).enum = l
  induction l with
  | nil => rfl
  | cons a l ih =>
    by_cases h : a.2.2 < relevanceCutoff <;>
      simp [List.filterMap_cons, List.filter_cons, h, ih]

/-! ## Claim C2: the distance filter -/

/-- C2: the context blocks are exactly the blocks of the retained
matches; a pair of the enumerated retrieval result is retained iff its
distance is strictly below `3/2 = 1.5`; the retained sequence is a
sublist of the enumerated result (original order, nothing with distance
`≥ 1.5` reaches prompt assembly); and for distances
`[0.2, 1.6, 0.9]` exactly the entries at `0.2` and `0.9` survive, in
that order. -/
theorem distanceFilter_C2 :
    (∀ (docs : List String) (dists : List ℚ),
      contextPartsOf docs dists
        = (retainedMatches docs dists).map (fun p => schemeBlock (p.1 + 1) p.2.2 p.2.1)) ∧
    (∀ (docs : List String) (dists : List ℚ) (p : ℕ × String × ℚ),
      p ∈ retainedMatches docs dists ↔ p ∈ (docs.zip dists).enum ∧ p.2.2 < 3/2) ∧
    (∀ (docs : List String) (dists : List ℚ),
      (retainedMatches docs dists).Sublist (docs.zip dists).enum) ∧
    retainedMatches ["a", "b", "c"] [mkRat 2 10, mkRat 16 10, mkRat 9 10]
      = [(0, "a", mkRat 2 10), (2, "c", mkRat 9 10)] := by
  refine ⟨contextParts_eq_map, fun docs dists p => ?_, fun docs dists => ?_, by decide⟩
  · have : (3 : ℚ)/2 = relevanceCutoff := relevanceCutoff_eq.symm
    rw [this]
    simp [retainedMatches, List.mem_filter]
  · exact List.filter_sublist _

/-! ## Claim C3: the sentinel context -/

/-- C3: whenever no match survives the distance filter, the context
placed in the assembled prompt is exactly the sentinel
`"No highly relevant schemes found in the database for this query."`
and in particular is not empty. -/
theorem sentinelContext_C3 (query : String) (ch : List Msg)
    (docs : List String) (dists : List ℚ)
    (h : retainedMatches docs dists = []) :
    contextString (contextPartsOf docs dists) = noRelevantSentinel ∧
    noRelevantSentinel
      = "No highly relevant schemes found in the database for this query." ∧
    contextString (contextPartsOf docs dists) ≠ "" ∧
    fullPromptOf query (contextString (contextPartsOf docs dists)) ch
      = systemPrompt ++ "\n\n" ++ noRelevantSentinel ++ "\n\n---\n\nUser Question: "
        ++ query ++ contextNote ch
        ++ "\n\nPlease answer based ONLY on the schemes provided in the context above." := by
  have hparts : contextPartsOf docs dists = [] := by
    rw [contextParts_eq_map, h]; rfl
  rw [hparts]
  exact ⟨rfl, rfl, by decide, rfl⟩

/-- C3 witness: a single retrieved document at distance `2 ≥ 1.5` leaves
no retained match and the context is the sentinel. -/
theorem sentinelContext_C3_witness :
    retainedMatches ["far doc"] [mkRat 2 1] = [] ∧
    contextString (contextPartsOf ["far doc"] [mkRat 2 1]) = noRelevantSentinel :=
  ⟨by decide, (sentinelContext_C3 "pension" [] ["far doc"] [mkRat 2 1] (by decide)).1⟩

/-! ## Claim C4: degradation on retrieval failure -/

/-- C4 counterexample: a raising search call propagates out of
`generate_response` (rag.py wraps no `try` around `search_schemes`), and
a result dict lacking the `documents` key raises `KeyError` at
`search_results['documents']` — so an external-service failure does
raise out of the core instead of degrading to an empty match sequence. -/
theorem retrievalFailure_C4_counterexample :
    generateResponse llmOk (fun _ _ => Except.error "ConnectionError") "q" []
      = Except.error "ConnectionError" ∧
    generateResponse llmOk
      (fun _ _ => Except.ok (some ⟨none, some (some [[mkRat 1 2]])⟩)) "q" []
      = Except.error "KeyError: documents" :=
  ⟨rfl, rfl⟩

/-- C4 amended: only a falsy (`None`) search result degrades to the
empty match sequence, with the core still returning a textual answer
built from the sentinel context; an exception raised by the search call
propagates out of `generate_response` unchanged, and a returned dict
missing the `documents` key raises `KeyError`. -/
theorem retrievalFailure_C4_amended (llm : LLM) (oracle : SearchOracle)
    (query : String) (ch : List Msg) (e : String) :
    (oracle (composeSearchQuery query ch) pipelineNResults = Except.error e →
      generateResponse llm oracle query ch = Except.error e) ∧
    (oracle (composeSearchQuery query ch) pipelineNResults = Except.ok none →
      generateResponse llm oracle query ch
        = Except.ok (llmStep llm
            (buildMessages ch (fullPromptOf query noRelevantSentinel ch))
            (fullPromptOf query noRelevantSentinel ch))) ∧
    (∀ dv, oracle (composeSearchQuery query ch) pipelineNResults
        = Except.ok (some ⟨none, dv⟩) →
      generateResponse llm oracle query ch = Except.error "KeyError: documents") := by
  refine ⟨fun h => ?_, fun h => ?_, fun dv h => ?_⟩ <;>
    simp only [generateResponse, searchSchemes] <;> rw [h] <;> rfl

/-- C4 amended witness: with a search oracle returning a falsy result,
the core degrades to the sentinel context and still answers. -/
theorem retrievalFailure_C4_amended_witness :
    generateResponse llmOk (fun _ _ => Except.ok none) "q" []
      = Except.ok (llmStep llmOk
          (buildMessages [] (fullPromptOf "q" noRelevantSentinel []))
          (fullPromptOf "q" noRelevantSentinel [])) :=
  (retrievalFailure_C4_amended llmOk (fun _ _ => Except.ok none) "q" [] "x").2.1 rfl

/-! ## Claim C5: the LLM error fallback -/

/-- C5: when the external LLM call raises, the `try`/`except` of
rag.py:222-231 returns the apology string — the claimed prefix followed
by a space and the error detail — and never re-raises (`llmStep` is a
total function into `String`); when the call succeeds the model's
textual reply is returned unchanged. -/
theorem llmFallback_C5 (llm : LLM) (messages : List GMsg) (fullPrompt : String)
    (e t : String) :
    (llmCallResult llm messages fullPrompt = Except.error e →
      llmStep llm messages fullPrompt
        = "I apologize, but I encountered an error while processing your request:"
          ++ (" " ++ e)) ∧
    (llmCallResult llm messages fullPrompt = Except.ok t →
      llmStep llm messages fullPrompt = t) := by
  constructor
  · intro h
    unfold llmStep
    rw [h, ← String.append_assoc]
    rfl
  · intro h
    unfold llmStep
    rw [h]

/-- C5 witness: an always-raising LLM at a concrete timeout error yields
the apology string with the error detail. -/
theorem llmFallback_C5_witness :
    llmStep llmTimeout [⟨"user", ["p"]⟩] "p"
      = "I apologize, but I encountered an error while processing your request:"
        ++ (" " ++ "Deadline exceeded") :=
  (llmFallback_C5 llmTimeout [⟨"user", ["p"]⟩] "p" "Deadline exceeded" "t").1 rfl

/-! ## Claim C6: the history window and the LLM dispatch -/

/-- The history window exactly as the specification describes it: the
last 6 turns of the history, oldest first, each mapped to role `"user"`
when its stored role is `"user"` and to `"model"` otherwise. -/
def historyWindowSpecC6 (ch : List Msg) : List GMsg :=
  (lastN 6 ch).map (fun m => ⟨if m.role = "user" then "user" else "model", [m.content]⟩)

/-- C6: the window forwarded to the LLM is the last 6 turns oldest-first
with the user/model role mapping; the message list is that window
followed by the prompt text as the newest user turn; when the window is
empty the single-turn completion call is made with the prompt text
alone, and otherwise the multi-turn call is seeded with exactly the
window and receives the prompt text as the newest turn. -/
theorem historyWindow_C6 (llm : LLM) (ch : List Msg) (fullPrompt : String) :
    historyWindow ch = historyWindowSpecC6 ch ∧
    buildMessages ch fullPrompt
      = historyWindowSpecC6 ch ++ [⟨"user", [fullPrompt]⟩] ∧
    (historyWindowSpecC6 ch = [] →
      llmCallResult llm (buildMessages ch fullPrompt) fullPrompt
        = llm.generateContent fullPrompt) ∧
    (historyWindowSpecC6 ch ≠ [] →
      llmCallResult llm (buildMessages ch fullPrompt) fullPrompt
        = llm.sendMessage (historyWindowSpecC6 ch) fullPrompt) := by
  have h1 : historyWindow ch = historyWindowSpecC6 ch := by
    unfold historyWindow historyWindowSpecC6
    by_cases h : ch.isEmpty
    · rw [if_pos h, List.isEmpty_iff.mp h]
      rfl
    · rw [if_neg h]
  have h2 : buildMessages ch fullPrompt
      = historyWindowSpecC6 ch ++ [⟨"user", [fullPrompt]⟩] := by
    unfold buildMessages
    rw [h1]
  refine ⟨h1, h2, fun hw => ?_, fun hw => ?_⟩
  · unfold llmCallResult
    rw [h2, hw]
    rfl
  · unfold llmCallResult
    rw [h2]
    have hne : ¬((historyWindowSpecC6 ch ++ [(⟨"user", [fullPrompt]⟩ : GMsg)]).length = 1) := by
      intro hlen
      rw [List.length_append, List.length_singleton] at hlen
      exact hw (List.length_eq_zero.mp (by omega))
    rw [if_neg hne, List.dropLast_concat]

/-- C6 witness: with no history a single-turn completion is issued; with
a one-turn history the chat is seeded with the mapped window. -/
theorem historyWindow_C6_witness :
    llmCallResult llmOk (buildMessages [] "p") "p" = llmOk.generateContent "p" ∧
    llmCallResult llmOk (buildMessages [⟨"user", "q1"⟩] "p") "p"
      = llmOk.sendMessage (historyWindowSpecC6 [⟨"user", "q1"⟩]) "p" :=
  ⟨(historyWindow_C6 llmOk [] "p").2.2.1 rfl,
   (historyWindow_C6 llmOk [⟨"user", "q1"⟩] "p").2.2.2 (by decide)⟩

/-! ## Claim C7: block headers and the displayed relevance -/

/-- C7: a retained match's block is the header
`--- Relevant Scheme N (Relevance: X.XX) ---`, a newline, and the
document text, with the displayed relevance `1 - distance` formatted to
two decimals; the context blocks are the retained matches' blocks in
retrieval order; non-empty block lists are joined with a blank line; a
single match at distance `0.3` yields the header
`--- Relevant Scheme 1 (Relevance: 0.70) ---`; and a distance above `1`
displays a negative relevance. -/
theorem schemeBlocks_C7 :
    (∀ (n : ℕ) (dist : ℚ) (doc : String),
      schemeBlock n dist doc
        = "--- Relevant Scheme " ++ toString n ++ " (Relevance: "
          ++ fmt2 (1 - dist) ++ ") ---\n" ++ doc) ∧
    (∀ (docs : List String) (dists : List ℚ),
      contextPartsOf docs dists
        = (retainedMatches docs dists).map
            (fun p => schemeBlock (p.1 + 1) p.2.2 p.2.1)) ∧
    (∀ (b : String) (bs : List String),
      contextString (b :: bs) = String.intercalate "\n\n" (b :: bs)) ∧
    contextString (contextPartsOf ["doc"] [mkRat 3 10])
      = "--- Relevant Scheme 1 (Relevance: 0.70) ---\ndoc" ∧
    schemeBlock 1 (mkRat 12 10) "d"
      = "--- Relevant Scheme 1 (Relevance: -0.20) ---\nd" ∧
    contextString (contextPartsOf ["a", "c"] [mkRat 2 10, mkRat 9 10])
      = "--- Relevant Scheme 1 (Relevance: 0.80) ---\na" ++ "\n\n"
        ++ "--- Relevant Scheme 2 (Relevance: 0.10) ---\nc" := by
  refine ⟨fun n dist doc => ?_, contextParts_eq_map, fun b bs => rfl,
    by decide, by decide, by decide⟩
  unfold schemeBlock
  rw [oneMinus_eq]

/-! ## Claim C8: the retrieval contract -/

/-- C8 counterexample: the declared default of `search_schemes`'s
`n_results` parameter (rag.py:140) is 5, not 10. -/
theorem retrieveDefault_C8_counterexample :
    searchSchemesDefaultNResults ≠ 10 := by
  decide

/-- C8 amended: `search_schemes(query, n_results=5)` forwards the query
and count to the external index unchanged; the pipeline call of
rag.py:162 passes `n_results=10` explicitly, and `generate_response`
consults the index only at the composed query with that count; whenever
the index returns at most 10 documents, the filtered context holds
between 0 and 10 entries. -/
theorem retrieveDefault_C8_amended :
    searchSchemesDefaultNResults = 5 ∧
    pipelineNResults = 10 ∧
    (∀ (oracle : SearchOracle) (q : String) (n : ℕ),
      searchSchemes oracle q n = oracle q n) ∧
    (∀ (llm : LLM) (o1 o2 : SearchOracle) (query : String) (ch : List Msg),
      o1 (composeSearchQuery query ch) pipelineNResults
          = o2 (composeSearchQuery query ch) pipelineNResults →
        generateResponse llm o1 query ch = generateResponse llm o2 query ch) ∧
    (∀ (docs : List String) (dists : List ℚ), docs.length ≤ 10 →
      (contextPartsOf docs dists).length ≤ 10) := by
  refine ⟨rfl, rfl, fun oracle q n => rfl, fun llm o1 o2 query ch h => ?_,
    fun docs dists h => ?_⟩
  · simp only [generateResponse, searchSchemes]
    rw [h]
  · calc (contextPartsOf docs dists).length
        = (retainedMatches docs dists).length := by
          rw [contextParts_eq_map, List.length_map]
      _ ≤ ((docs.zip dists).enum).length := List.length_filter_le _ _
      _ = (docs.zip dists).length := List.enum_length
      _ ≤ docs.length := by
          rw [List.length_zip]
          exact Nat.min_le_left _ _
      _ ≤ 10 := h

/-- C8 amended witness: a one-document retrieval leaves at most 10
filtered context entries. -/
theorem retrieveDefault_C8_amended_witness :
    (contextPartsOf ["a"] [mkRat 1 2]).length ≤ 10 :=
  retrieveDefault_C8_amended.2.2.2.2 ["a"] [mkRat 1 2] (by decide)

/-! ## Claim C9: determinism of prompt assembly -/

/-- C9: prompt assembly is a pure function of its inputs: assembling
from a fixed query, fixed match lists and empty history twice yields
identical prompt text, and the history window is empty. -/
theorem assembleDeterministic_C9 (query : String) (docs : List String)
    (dists : List ℚ) :
    assemblePrompt query docs dists [] = assemblePrompt query docs dists [] ∧
    (assemblePrompt query docs dists []).2 = [] :=
  ⟨rfl, rfl⟩

/-! ## Claim C10: header numbers come from the unfiltered list -/

/-- C10: the index carried by each retained match addresses its pair in
the unfiltered `zip(documents, distances)`, the header is rendered with
that index plus one, and for distances `[0.2, 1.6, 0.9]` the two
surviving blocks are numbered 1 and 3 (non-consecutive). -/
theorem headerNumbering_C10 :
    (∀ (docs : List String) (dists : List ℚ) (i : ℕ) (doc : String) (dist : ℚ),
      (i, doc, dist) ∈ retainedMatches docs dists →
        (docs.zip dists)[i]? = some (doc, dist)) ∧
    (∀ (docs : List String) (dists : List ℚ),
      contextPartsOf docs dists
        = (retainedMatches docs dists).map
            (fun p => schemeBlock (p.1 + 1) p.2.2 p.2.1)) ∧
    contextPartsOf ["a", "b", "c"] [mkRat 2 10, mkRat 16 10, mkRat 9 10]
      = ["--- Relevant Scheme 1 (Relevance: 0.80) ---\na",
         "--- Relevant Scheme 3 (Relevance: 0.10) ---\nc"] := by
  refine ⟨fun docs dists i doc dist h => ?_, contextParts_eq_map, by decide⟩
  have hmem : (i, (doc, dist)) ∈ (docs.zip dists).enum :=
    (List.mem_filter.mp h).1
  exact List.mk_mem_enum_iff_getElem?.mp hmem

/-- C10 witness: the second surviving match of the example addresses
position 2 (0-based) of the unfiltered list, hence header number 3. -/
theorem headerNumbering_C10_witness :
    (["a", "b", "c"].zip [mkRat 2 10, mkRat 16 10, mkRat 9 10])[2]?
      = some ("c", mkRat 9 10) :=
  headerNumbering_C10.1 ["a", "b", "c"] [mkRat 2 10, mkRat 16 10, mkRat 9 10]
    2 "c" (mkRat 9 10) (by decide)

end SchemeChatbot
